import Mathlib

/-!
Shallow embedding of the commode client (a caching, optimistically-concurrent
client for the Cabinet file server) and proofs about its synchronization
protocol.

The embedding follows `src/commode/server.py`, `src/commode/file_entry.py` and
`src/commode/boilerplate.py`.  Each HTTP-performing method of `Server` is split
into a pure request-formation function (header/URL computation) and a pure
response-classification function (the status-code dispatch that follows the
`requests` call).  The entry-level methods (`FileEntry.content`,
`FileEntry.update`, `FileEntry.delete`, `Boilerplate.update`) are embedded as
state-passing functions over an abstract transport oracle, returning the
result, the new in-memory data, the new persistent cache, the new transport
state and the list of requests issued.
-/

namespace Commode

/-- Error taxonomy.  `error`, `notCached` and `notCacheable` come from
`src/commode/exceptions.py`.  `notFound`, `badRequest` and
`preconditionFailed` are imported by `server.py` but their definitions are not
under `src/` (the imports are circular in the snapshot); they are modelled
from the spec's error taxonomy (§7) as plain tagged errors carrying the
response text.  `unexpectedStatus` models the bare `raise Exception(r.text)`
branches, `keyError` a missing response header, and `assertionFailed` a failed
`assert` statement. -/
inductive Exc where
  | error (msg : String)
  | notCached (name : String)
  | notCacheable
  | notFound (msg : String)
  | badRequest (msg : String)
  | preconditionFailed (msg : String)
  | unexpectedStatus (msg : String)
  | keyError (key : String)
  | assertionFailed
deriving Repr, DecidableEq

/-- HTTP method of a request issued by the client. -/
inductive Method where
  | get
  | head
  | put
  | delete
deriving Repr, DecidableEq

/-- Structured form of the path strings built by the `Server` methods:
`f'/files/{name}'`, `f'/dirs/{name}'`, `f'/boilerplates/{name}'` and the bare
`f'/boilerplates'`.  The rendering of these paths into percent-encoded URL
strings is modelled separately by `Server.url`. -/
inductive RePath where
  | files (name : String)
  | dirs (name : String)
  | boilerplates (name : String)
  | boilerplatesRoot
deriving Repr, DecidableEq

/-- A boilerplate payload: a mapping of client-side path to server-side file
name (`Files` in `boilerplate.py`), modelled as an association list. -/
abbrev Files := List (String × String)

/-- A request as assembled by a `Server` method: method, path, the four
conditional headers, and the body (`data=content.encode()` for files,
`json=files` for boilerplates). -/
structure Request where
  method : Method
  path : RePath
  ifNoneMatch : Option String := none
  ifModifiedSince : Option String := none
  ifMatch : Option String := none
  ifUnmodifiedSince : Option String := none
  body : Option String := none
  jsonBody : Option Files := none
deriving Repr, DecidableEq

/-- A wire response: status code, the `etag` and `last-modified` headers (as
optional, to model `r.headers[...]` raising `KeyError` when absent), the text
body and the decoded JSON body (for boilerplates). -/
structure Response where
  status : Nat
  etag : Option String := none
  lastModified : Option String := none
  text : String := ""
  json : Option Files := none
deriving Repr, DecidableEq

/-- The `FileData` record (a namedtuple with fields `etag, modified, content`
each defaulting to `None`).  Its definition is not under `src/` (it is
imported circularly between `server.py` and `file_entry.py`); modelled from
the spec's Cached Record `{validator, last_modified, payload: Optional}` and
from every construction site in `server.py` and `file_entry.py`. -/
structure FileData where
  etag : Option String := none
  modified : Option String := none
  content : Option String := none
deriving Repr, DecidableEq

/-- The `BoilerplateData` namedtuple from `boilerplate.py`:
fields `etag, modified, files`, each defaulting to `None`. -/
structure BoilerplateData where
  etag : Option String := none
  modified : Option String := none
  files : Option Files := none
deriving Repr, DecidableEq

/-- Python truthiness filter used by every `if etag:` / `if modified_since:`
header guard in `server.py`: a conditional header is attached exactly when the
supplied optional string is present and non-empty. -/
def condVal : Option String → Option String
  | none => none
  | some s => if s = "" then none else some s

/-- Request formed by `Server.get_file` (method, URL and conditional
headers). -/
def Server.get_file_request (name : String) (etag modified_since : Option String) : Request :=
  { method := .get, path := .files name,
    ifNoneMatch := condVal etag, ifModifiedSince := condVal modified_since }

/-- Request formed by `Server.file_head`: a bare HEAD with no conditional
headers. -/
def Server.file_head_request (name : String) : Request :=
  { method := .head, path := .files name }

/-- Request formed by `Server.put_file`. -/
def Server.put_file_request (name content : String) (etag unmodified_since : Option String) :
    Request :=
  { method := .put, path := .files name,
    ifMatch := condVal etag, ifUnmodifiedSince := condVal unmodified_since,
    body := some content }

/-- Request formed by `Server.delete_file`. -/
def Server.delete_file_request (name : String) (etag unmodified_since : Option String) :
    Request :=
  { method := .delete, path := .files name,
    ifMatch := condVal etag, ifUnmodifiedSince := condVal unmodified_since }

/-- Request formed by `Server.get_boilerplate`. -/
def Server.get_boilerplate_request (name : String) (etag modified_since : Option String) :
    Request :=
  { method := .get, path := .boilerplates name,
    ifNoneMatch := condVal etag, ifModifiedSince := condVal modified_since }

/-- Request formed by `Server.put_boilerplate`. -/
def Server.put_boilerplate_request (name : String) (files : Files)
    (etag unmodified_since : Option String) : Request :=
  { method := .put, path := .boilerplates name,
    ifMatch := condVal etag, ifUnmodifiedSince := condVal unmodified_since,
    jsonBody := some files }

/-- Request formed by `Server.delete_boilerplate`. -/
def Server.delete_boilerplate_request (name : String) (etag unmodified_since : Option String) :
    Request :=
  { method := .delete, path := .boilerplates name,
    ifMatch := condVal etag, ifUnmodifiedSince := condVal unmodified_since }

/-- Status dispatch of `Server.get_file`: 304 means the cache is valid
(`None`), 400 is `BadRequest`, 404 is `NotFound`, any other code at or above
300 is a bare `Exception`, and everything below 300 is read as a success whose
`etag` and `last-modified` headers are required (a missing one raises
`KeyError`). -/
def Server.get_file_classify (r : Response) : Except Exc (Option FileData) :=
  if r.status = 304 then .ok none
  else if r.status = 400 then .error (.badRequest r.text)
  else if r.status = 404 then .error (.notFound r.text)
  else if 300 ≤ r.status then .error (.unexpectedStatus r.text)
  else
    match r.etag, r.lastModified with
    | some e, some m => .ok (some { etag := some e, modified := some m, content := some r.text })
    | none, _ => .error (.keyError "etag")
    | some _, none => .error (.keyError "last-modified")

/-- Status dispatch of `Server.file_head`: like `get_file` without the 304
case, and the returned `FileData` carries no content. -/
def Server.file_head_classify (r : Response) : Except Exc FileData :=
  if r.status = 400 then .error (.badRequest r.text)
  else if r.status = 404 then .error (.notFound r.text)
  else if 300 ≤ r.status then .error (.unexpectedStatus r.text)
  else
    match r.etag, r.lastModified with
    | some e, some m => .ok { etag := some e, modified := some m, content := none }
    | none, _ => .error (.keyError "etag")
    | some _, none => .error (.keyError "last-modified")

/-- Status dispatch of `Server.put_file`: 400 is `BadRequest`, 412 is
`PreconditionFailed`, any other code at or above 300 is a bare `Exception`,
anything below 300 succeeds. -/
def Server.put_file_classify (r : Response) : Except Exc Unit :=
  if r.status = 400 then .error (.badRequest r.text)
  else if r.status = 412 then .error (.preconditionFailed r.text)
  else if 300 ≤ r.status then .error (.unexpectedStatus r.text)
  else .ok ()

/-- Status dispatch of `Server.delete_file`: 400 is `BadRequest`, 404 is
`NotFound`, 412 is `PreconditionFailed`, any other code at or above 300 is a
bare `Exception`, anything below 300 succeeds. -/
def Server.delete_file_classify (r : Response) : Except Exc Unit :=
  if r.status = 400 then .error (.badRequest r.text)
  else if r.status = 404 then .error (.notFound r.text)
  else if r.status = 412 then .error (.preconditionFailed r.text)
  else if 300 ≤ r.status then .error (.unexpectedStatus r.text)
  else .ok ()

/-- Status dispatch of `Server.get_boilerplate`: 304 means the cache is valid,
404 is `NotFound`, any other code at or above 300 is a bare `Exception`;
otherwise the JSON body and the `etag` / `last-modified` headers make up a
`BoilerplateData`. -/
def Server.get_boilerplate_classify (r : Response) : Except Exc (Option BoilerplateData) :=
  if r.status = 304 then .ok none
  else if r.status = 404 then .error (.notFound r.text)
  else if 300 ≤ r.status then .error (.unexpectedStatus r.text)
  else
    match r.json, r.etag, r.lastModified with
    | some fs, some e, some m =>
        .ok (some { etag := some e, modified := some m, files := some fs })
    | none, _, _ => .error (.error "invalid json body")
    | some _, none, _ => .error (.keyError "etag")
    | some _, some _, none => .error (.keyError "last-modified")

/-- Status dispatch of `Server.put_boilerplate`: same as `put_file`. -/
def Server.put_boilerplate_classify (r : Response) : Except Exc Unit :=
  if r.status = 400 then .error (.badRequest r.text)
  else if r.status = 412 then .error (.preconditionFailed r.text)
  else if 300 ≤ r.status then .error (.unexpectedStatus r.text)
  else .ok ()

/-- Status dispatch of `Server.delete_boilerplate`: 404 is `NotFound`, 412 is
`PreconditionFailed`, any other code at or above 300 is a bare `Exception`,
anything below 300 succeeds. -/
def Server.delete_boilerplate_classify (r : Response) : Except Exc Unit :=
  if r.status = 404 then .error (.notFound r.text)
  else if r.status = 412 then .error (.preconditionFailed r.text)
  else if 300 ≤ r.status then .error (.unexpectedStatus r.text)
  else .ok ()

/-- The persistent file cache (the `shelve` store at `common.FILES_CACHE`),
as a partial map from resource names to `FileData`. -/
abbrev Cache := String → Option FileData

/-- The persistent boilerplate cache (the `shelve` store at
`common.BOILERPLATE_CACHE`). -/
abbrev BCache := String → Option BoilerplateData

/-- Effect of `FileEntry._write_cache` on the store: `cache[self.name] = data`
overwrites unconditionally. -/
def cacheInsert (c : Cache) (name : String) (v : FileData) : Cache :=
  fun m => if m = name then some v else c m

/-- Effect of `FileEntry._delete_cache` on the store: `del cache[self.name]`
with `KeyError` swallowed, so it is total and silently succeeds when
absent. -/
def cacheDelete (c : Cache) (name : String) : Cache :=
  fun m => if m = name then none else c m

/-- Effect of `Boilerplate._write_cache` on the boilerplate store. -/
def bcacheInsert (c : BCache) (name : String) (v : BoilerplateData) : BCache :=
  fun m => if m = name then some v else c m

/-- Effect of `Boilerplate._delete_cache` on the boilerplate store. -/
def bcacheDelete (c : BCache) (name : String) : BCache :=
  fun m => if m = name then none else c m

/-- A transport oracle: given its internal state and the request actually
sent, produce the wire response and the next state.  `FileEntry` and
`Boilerplate` operations are generic over it; the conforming Cabinet server of
the spec (§6) is one instance, adversarial or misbehaving servers are
others. -/
abbrev Transport (σ : Type) := σ → Request → Response × σ

/-- The in-memory `self._data` after `FileEntry._safe_data` ran: if `_data` is
absent the cache is consulted and the internal `NotCached` signal is swallowed
(`_data` stays `None` on a miss).  The value the caller destructures is
`self._data or FileData()`, i.e. `(safe_data ...).getD default`. -/
def safe_data (d : Option FileData) (cache : Cache) (name : String) : Option FileData :=
  match d with
  | some x => some x
  | none => cache name

/-- The analogous `Boilerplate._safe_data` result. -/
def bsafe_data (d : Option BoilerplateData) (cache : BCache) (name : String) :
    Option BoilerplateData :=
  match d with
  | some x => some x
  | none => cache name

/-- Result of one entry-level file operation: the returned value or raised
error, the final in-memory `_data`, the final persistent cache, the final
transport state, and the requests issued in order. -/
structure FOut (α : Type) (σ : Type) where
  result : Except Exc α
  data : Option FileData
  cache : Cache
  state : σ
  requests : List Request

/-- Result of one entry-level boilerplate operation. -/
structure BOut (α : Type) (σ : Type) where
  result : Except Exc α
  data : Option BoilerplateData
  cache : BCache
  state : σ
  requests : List Request

/-- Embedding of `FileEntry.content`: consult the cache, issue one
conditional get, and on a fresh payload overwrite `_data` and the cache; on a
304 the cached data is returned (the `assert self._data is not None` failing
when nothing was cached). -/
def FileEntry.content {σ : Type} (t : Transport σ) (s : σ) (name : String)
    (d : Option FileData) (cache : Cache) : FOut (Option String) σ :=
  let data0 := safe_data d cache name
  let fd := data0.getD {}
  let req := Server.get_file_request name fd.etag fd.modified
  let rs := t s req
  match Server.get_file_classify rs.1 with
  | .error e =>
      { result := .error e, data := data0, cache := cache, state := rs.2, requests := [req] }
  | .ok none =>
      match data0 with
      | none =>
          { result := .error .assertionFailed, data := none, cache := cache, state := rs.2,
            requests := [req] }
      | some fd0 =>
          { result := .ok fd0.content, data := some fd0, cache := cache, state := rs.2,
            requests := [req] }
  | .ok (some nd) =>
      { result := .ok nd.content, data := some nd, cache := cacheInsert cache name nd,
        state := rs.2, requests := [req] }

/-- Embedding of `FileEntry.update`: consult the cache, issue one conditional
put; `PreconditionFailed` is caught and re-raised as a conflict `Error`
naming the resource, leaving everything untouched; on success one metadata
HEAD learns the fresh validator and the new record pairs it with the content
just written. -/
def FileEntry.update {σ : Type} (t : Transport σ) (s : σ) (name content : String)
    (d : Option FileData) (cache : Cache) : FOut Unit σ :=
  let data0 := safe_data d cache name
  let fd := data0.getD {}
  let putReq := Server.put_file_request name content fd.etag fd.modified
  let rs1 := t s putReq
  match Server.put_file_classify rs1.1 with
  | .error (.preconditionFailed _) =>
      { result := .error (.error s!"{name} has been modified on the server since your last access. Try downloading the file to review the changes."),
        data := data0, cache := cache, state := rs1.2, requests := [putReq] }
  | .error e =>
      { result := .error e, data := data0, cache := cache, state := rs1.2, requests := [putReq] }
  | .ok _ =>
      let headReq := Server.file_head_request name
      let rs2 := t rs1.2 headReq
      match Server.file_head_classify rs2.1 with
      | .error e =>
          { result := .error e, data := data0, cache := cache, state := rs2.2,
            requests := [putReq, headReq] }
      | .ok hd =>
          let nd : FileData := { hd with content := some content }
          { result := .ok (), data := some nd, cache := cacheInsert cache name nd,
            state := rs2.2, requests := [putReq, headReq] }

/-- Embedding of `FileEntry.delete`: consult the cache, issue one conditional
delete; every transport error propagates uncaught, and only on success is the
cache record evicted. -/
def FileEntry.delete {σ : Type} (t : Transport σ) (s : σ) (name : String)
    (d : Option FileData) (cache : Cache) : FOut Unit σ :=
  let data0 := safe_data d cache name
  let fd := data0.getD {}
  let req := Server.delete_file_request name fd.etag fd.modified
  let rs := t s req
  match Server.delete_file_classify rs.1 with
  | .error e =>
      { result := .error e, data := data0, cache := cache, state := rs.2, requests := [req] }
  | .ok _ =>
      { result := .ok (), data := data0, cache := cacheDelete cache name, state := rs.2,
        requests := [req] }

/-- Embedding of `Boilerplate.update`: like `FileEntry.update` except that the
post-write refresh is `self._data = common.SERVER.get_boilerplate(self.name)`
— a full unconditional GET of the boilerplate content, not a metadata-only
HEAD — followed by `_write_cache` (which raises `NotCacheable` if that GET
somehow returned `None`). -/
def Boilerplate.update {σ : Type} (t : Transport σ) (s : σ) (name : String) (files : Files)
    (d : Option BoilerplateData) (cache : BCache) : BOut Unit σ :=
  let data0 := bsafe_data d cache name
  let bd := data0.getD {}
  let putReq := Server.put_boilerplate_request name files bd.etag bd.modified
  let rs1 := t s putReq
  match Server.put_boilerplate_classify rs1.1 with
  | .error (.preconditionFailed _) =>
      { result := .error (.error s!"{name} has been modified on the server since your last access. Try downloading the boilerplate to review the changes."),
        data := data0, cache := cache, state := rs1.2, requests := [putReq] }
  | .error e =>
      { result := .error e, data := data0, cache := cache, state := rs1.2, requests := [putReq] }
  | .ok _ =>
      let getReq := Server.get_boilerplate_request name none none
      let rs2 := t rs1.2 getReq
      match Server.get_boilerplate_classify rs2.1 with
      | .error e =>
          { result := .error e, data := data0, cache := cache, state := rs2.2,
            requests := [putReq, getReq] }
      | .ok none =>
          { result := .error .notCacheable, data := none, cache := cache, state := rs2.2,
            requests := [putReq, getReq] }
      | .ok (some nd) =>
          { result := .ok (), data := some nd, cache := bcacheInsert cache name nd,
            state := rs2.2, requests := [putReq, getReq] }

/-- Modelled from the spec: §6 requires the remote server to hold, per name,
a current validator, last-modified timestamp and content; the Cabinet server
itself is an external collaborator, not part of `src/`. -/
structure RemoteFile where
  etag : String
  modified : String
  content : String
deriving Repr, DecidableEq

/-- Modelled from the spec: the remote's file-namespace state, plus a counter
from which fresh validators and timestamps for new writes are minted. -/
structure FRemote where
  files : String → Option RemoteFile
  fresh : Nat

/-- Modelled from the spec: a boilerplate resource held by the remote. -/
structure BRemoteFile where
  etag : String
  modified : String
  files : Files
deriving Repr, DecidableEq

/-- Modelled from the spec: the remote's boilerplate-namespace state. -/
structure BRemote where
  store : String → Option BRemoteFile
  fresh : Nat

/-- Fresh validator minted by the modelled remote for its n-th write. -/
def freshEtag (n : Nat) : String := String.mk (Char.ofNat 101 :: (Nat.repr n).data)

/-- Fresh last-modified timestamp minted by the modelled remote for its n-th
write. -/
def freshMod (n : Nat) : String := String.mk (Char.ofNat 116 :: (Nat.repr n).data)

/-- Modelled from the spec: §6 read conditioning — a conditional read is
answered `304 Not Modified` when the supplied `If-None-Match` value matches
the current validator (or, with no `If-None-Match`, when the supplied
`If-Modified-Since` value matches the current timestamp). -/
def condNotModified (e m : String) (inm ims : Option String) : Bool :=
  match inm with
  | some v => decide (v = e)
  | none =>
    match ims with
    | some v => decide (v = m)
    | none => false

/-- Modelled from the spec: §6 write/delete conditioning — the operation is
applied only if every supplied precondition matches the current
validator/timestamp pair; otherwise it is answered 412. -/
def preMatch (cur : Option (String × String)) (im ius : Option String) : Bool :=
  (match im with
   | none => true
   | some v =>
     match cur with
     | some em => decide (v = em.1)
     | none => false) &&
  (match ius with
   | none => true
   | some v =>
     match cur with
     | some em => decide (v = em.2)
     | none => false)

/-- Current (validator, timestamp) pair of a remote file, if present. -/
def remoteCur (f : Option RemoteFile) : Option (String × String) :=
  f.map (fun g => (g.etag, g.modified))

/-- Current (validator, timestamp) pair of a remote boilerplate, if
present. -/
def bremoteCur (f : Option BRemoteFile) : Option (String × String) :=
  f.map (fun g => (g.etag, g.modified))

/-- Successful GET response for a remote file: §6 requires every successful
read response to carry a fresh validator and timestamp. -/
def ok200 (g : RemoteFile) : Response :=
  { status := 200, etag := some g.etag, lastModified := some g.modified, text := g.content }

/-- Successful HEAD response for a remote file: validator and timestamp, no
body. -/
def okHead (g : RemoteFile) : Response :=
  { status := 200, etag := some g.etag, lastModified := some g.modified, text := "" }

/-- Modelled from the spec: the conforming Cabinet server's file namespace
(§6) — honors the conditional-request semantics of §4.3, returns 404 for
absent resources, 412 for failed preconditions, and mints a fresh validator
and timestamp on every applied write. -/
def fileRemote : Transport FRemote := fun s req =>
  match req.path with
  | .files name =>
    match req.method with
    | .get =>
      match s.files name with
      | none => ({ status := 404, text := "file not found" }, s)
      | some g =>
        if condNotModified g.etag g.modified req.ifNoneMatch req.ifModifiedSince then
          ({ status := 304 }, s)
        else (ok200 g, s)
    | .head =>
      match s.files name with
      | none => ({ status := 404, text := "file not found" }, s)
      | some g => (okHead g, s)
    | .put =>
      if preMatch (remoteCur (s.files name)) req.ifMatch req.ifUnmodifiedSince then
        let g : RemoteFile :=
          { etag := freshEtag s.fresh, modified := freshMod s.fresh,
            content := req.body.getD "" }
        ({ status := 200 },
         { files := fun m => if m = name then some g else s.files m, fresh := s.fresh + 1 })
      else ({ status := 412, text := "precondition failed" }, s)
    | .delete =>
      match s.files name with
      | none => ({ status := 404, text := "file not found" }, s)
      | some _ =>
        if preMatch (remoteCur (s.files name)) req.ifMatch req.ifUnmodifiedSince then
          ({ status := 200 },
           { files := fun m => if m = name then none else s.files m, fresh := s.fresh })
        else ({ status := 412, text := "precondition failed" }, s)
  | _ => ({ status := 404, text := "unknown path" }, s)

/-- Modelled from the spec: the conforming Cabinet server's boilerplate
namespace (§6), with the JSON mapping as payload. -/
def bpRemote : Transport BRemote := fun s req =>
  match req.path with
  | .boilerplates name =>
    match req.method with
    | .get =>
      match s.store name with
      | none => ({ status := 404, text := "boilerplate not found" }, s)
      | some g =>
        if condNotModified g.etag g.modified req.ifNoneMatch req.ifModifiedSince then
          ({ status := 304 }, s)
        else
          ({ status := 200, etag := some g.etag, lastModified := some g.modified,
             json := some g.files }, s)
    | .head =>
      match s.store name with
      | none => ({ status := 404, text := "boilerplate not found" }, s)
      | some g =>
        ({ status := 200, etag := some g.etag, lastModified := some g.modified }, s)
    | .put =>
      if preMatch (bremoteCur (s.store name)) req.ifMatch req.ifUnmodifiedSince then
        let g : BRemoteFile :=
          { etag := freshEtag s.fresh, modified := freshMod s.fresh,
            files := req.jsonBody.getD [] }
        ({ status := 200 },
         { store := fun m => if m = name then some g else s.store m, fresh := s.fresh + 1 })
      else ({ status := 412, text := "precondition failed" }, s)
    | .delete =>
      match s.store name with
      | none => ({ status := 404, text := "boilerplate not found" }, s)
      | some _ =>
        if preMatch (bremoteCur (s.store name)) req.ifMatch req.ifUnmodifiedSince then
          ({ status := 200 },
           { store := fun m => if m = name then none else s.store m, fresh := s.fresh })
        else ({ status := 412, text := "precondition failed" }, s)
  | _ => ({ status := 404, text := "unknown path" }, s)

/-- Uppercase hexadecimal digit, as produced by `urllib.parse.quote`. -/
def hexUpper (n : Nat) : Char :=
  if n < 10 then Char.ofNat (48 + n) else Char.ofNat (55 + n)

/-- Bytes left untouched by `urllib.parse.quote(path)` with its default
`safe='/'`: ASCII letters, digits, `_`, `.`, `-`, `~` and `/`. -/
def pySafeByte (b : Nat) : Bool :=
  decide ((65 ≤ b ∧ b ≤ 90) ∨ (97 ≤ b ∧ b ≤ 122) ∨ (48 ≤ b ∧ b ≤ 57) ∨
    b = 95 ∨ b = 46 ∨ b = 45 ∨ b = 126 ∨ b = 47)

/-- Percent-encoding of one byte, after `urllib.parse.quote`. -/
def quoteByte (b : Nat) : String :=
  if pySafeByte b then String.singleton (Char.ofNat b)
  else String.singleton (Char.ofNat 37) ++ String.singleton (hexUpper (b / 16)) ++
    String.singleton (hexUpper (b % 16))

/-- `urllib.parse.quote` over the UTF-8 bytes of the path string. -/
def pyQuote : List Nat → String
  | [] => ""
  | b :: bs => quoteByte b ++ pyQuote bs

/-- The `urllib.parse.ParseResult` six-tuple built by `Server._url`. -/
structure ParseResult where
  scheme : String
  netloc : String
  path : String
  params : String
  query : String
  fragment : String
deriving Repr, DecidableEq

/-- Embedding of `Server._url`: a `ParseResult` whose scheme and netloc are
the server's configured scheme and address and whose path is the
percent-encoding of the given path bytes; params, query and fragment are
empty. -/
def Server.url (scheme address : String) (path : List Nat) : ParseResult :=
  { scheme := scheme, netloc := address, path := pyQuote path,
    params := "", query := "", fragment := "" }

/-- UTF-8 bytes of the literal path segment in `f'/files/{name}'`. -/
def bytesFiles : List Nat := [47, 102, 105, 108, 101, 115, 47]

/-- UTF-8 bytes of the literal path segment in `f'/dirs/{name}'`. -/
def bytesDirs : List Nat := [47, 100, 105, 114, 115, 47]

/-- UTF-8 bytes of the literal path segment in `f'/boilerplates/{name}'`. -/
def bytesBoilerplates : List Nat :=
  [47, 98, 111, 105, 108, 101, 114, 112, 108, 97, 116, 101, 115, 47]

/-- A dynamically-typed Python value, as far as the `Files` sanity check is
concerned: a string or something that is not a string. -/
inductive PyVal where
  | str (s : String)
  | int (n : Int)
  | noneV
deriving Repr, DecidableEq

/-- Python `isinstance(v, str)`. -/
def PyVal.isStr : PyVal → Bool
  | .str _ => true
  | _ => false

/-- The full message of the `InvalidBoilerplate` raised by `Files.__init__`
(after the `Error` prefixing in `InvalidBoilerplate.__init__`). -/
def invalidBoilerplateMsg : String :=
  "invalid boilerplate: must be a mapping of \x7b \"clientfile\" : \"serverfile\" \x7d"

/-- Embedding of `Files.__init__`: raise `InvalidBoilerplate` unless every key
and every value of the mapping is a string, otherwise the constructed `Files`
is a copy of the given mapping. -/
def Files.init (files : List (PyVal × PyVal)) : Except Exc (List (PyVal × PyVal)) :=
  if files.all (fun kv => kv.1.isStr && kv.2.isStr) then .ok files
  else .error (.error invalidBoilerplateMsg)

/-- Truthiness filter characterization: a conditional header value is
produced exactly for a present, non-empty input string. -/
theorem condVal_eq_some (v : Option String) (s : String) :
    condVal v = some s ↔ v = some s ∧ s ≠ "" := by
  cases v with
  | none => simp [condVal]
  | some t =>
    by_cases h : t = ""
    · subst h
      simp only [condVal, if_pos rfl]
      constructor
      · intro he
        exact absurd he (by simp)
      · rintro ⟨he, hs⟩
        exact absurd (Option.some_inj.mp he).symm hs
    · simp only [condVal, if_neg h]
      constructor
      · intro he
        refine ⟨he, ?_⟩
        rw [← Option.some_inj.mp he]
        exact h
      · exact fun hp => hp.1

/-- Fresh validators minted by the modelled remote are never the empty
string, so they always pass the client's truthiness guard. -/
theorem freshEtag_ne_empty (n : Nat) : freshEtag n ≠ "" := by
  intro h
  have h2 := congrArg String.data h
  simp [freshEtag] at h2

/-- Fresh timestamps minted by the modelled remote are never the empty
string. -/
theorem freshMod_ne_empty (n : Nat) : freshMod n ≠ "" := by
  intro h
  have h2 := congrArg String.data h
  simp [freshMod] at h2

/-- Percent-encoding distributes over concatenation of byte strings. -/
theorem pyQuote_append (a b : List Nat) : pyQuote (a ++ b) = pyQuote a ++ pyQuote b := by
  induction a with
  | nil => simp [pyQuote]
  | cons x xs ih =>
    show quoteByte x ++ pyQuote (xs ++ b) = quoteByte x ++ pyQuote xs ++ pyQuote b
    rw [ih]
    apply String.ext
    simp [String.data_append]

/-- The fixed files prefix is untouched by percent-encoding. -/
theorem pyQuote_bytesFiles : pyQuote bytesFiles = "/files/" := by decide

/-- The fixed dirs prefix is untouched by percent-encoding. -/
theorem pyQuote_bytesDirs : pyQuote bytesDirs = "/dirs/" := by decide

/-- The fixed boilerplates prefix is untouched by percent-encoding. -/
theorem pyQuote_bytesBoilerplates : pyQuote bytesBoilerplates = "/boilerplates/" := by decide

/-- The get_file status dispatch never produces the internal cache-miss
signal. -/
theorem get_file_classify_ne_notCached (r : Response) (m : String) :
    Server.get_file_classify r ≠ .error (.notCached m) := by
  unfold Server.get_file_classify
  repeat' split
  all_goals simp

/-- No outcome of a read surfaces the internal cache-miss signal: the
`NotCached` raised by `_read_cache` is swallowed inside `_safe_data`. -/
theorem content_result_ne_notCached {σ : Type} (t : Transport σ) (s : σ) (name : String)
    (d : Option FileData) (c : Cache) (msg : String) :
    (FileEntry.content t s name d c).result ≠ .error (.notCached msg) := by
  unfold FileEntry.content
  dsimp only
  split
  · next e heq =>
    intro h
    injection h with h2
    exact get_file_classify_ne_notCached _ msg (h2 ▸ heq)
  · split <;> simp
  · simp

/-- C6 (amended): for get_file, put_file and delete_file, every response
status at or above 300 that is not explicitly classified (304/400/404/412 as
applicable) is treated as a protocol violation — a bare unexpected-status
failure that aborts the operation; an unclassified status below 300 (e.g. a
1xx code) is treated as a success by put_file and delete_file, not as a
protocol violation. -/
theorem c6_unclassified_status (r : Response) (h304 : r.status ≠ 304) (h400 : r.status ≠ 400)
    (h404 : r.status ≠ 404) (h412 : r.status ≠ 412) :
    (300 ≤ r.status →
      Server.get_file_classify r = .error (.unexpectedStatus r.text) ∧
      Server.put_file_classify r = .error (.unexpectedStatus r.text) ∧
      Server.delete_file_classify r = .error (.unexpectedStatus r.text)) ∧
    (r.status < 300 →
      Server.put_file_classify r = .ok () ∧
      Server.delete_file_classify r = .ok ()) := by
  constructor
  · intro hge
    refine ⟨?_, ?_, ?_⟩ <;>
      simp [Server.get_file_classify, Server.put_file_classify, Server.delete_file_classify,
        h304, h400, h404, h412, hge]
  · intro hlt
    have hn : ¬ 300 ≤ r.status := by omega
    refine ⟨?_, ?_⟩ <;>
      simp [Server.put_file_classify, Server.delete_file_classify, h400, h404, h412, hn]

/-- Witness for C6 at status 500. -/
theorem c6_unclassified_status_w :
    (500 : Nat) ≠ 304 ∧
    Server.get_file_classify { status := 500, text := "boom" } =
      .error (.unexpectedStatus "boom") :=
  ⟨by decide,
   ((c6_unclassified_status { status := 500, text := "boom" } (by decide) (by decide)
      (by decide) (by decide)).1 (by decide)).1⟩

/-- C6 counterexample: status 100 is below 300 and is not one of the codes an
operation explicitly classifies, yet put_file treats the response as a plain
success and get_file happily parses it as fresh file data — it is not treated
as an unexpected-status protocol violation, so the claimed exhaustive mapping
fails for unclassified codes below 300. -/
theorem c6_counterexample :
    Server.put_file_classify { status := 100 } = .ok () ∧
    Server.get_file_classify
        { status := 100, etag := some "e", lastModified := some "m", text := "b" } =
      .ok (some { etag := some "e", modified := some "m", content := some "b" }) := by
  constructor <;> rfl

/-- C8: address formation is a pure function of scheme, server address and
path; for each namespace the resulting URL path is exactly the fixed prefix
concatenated with the percent-encoded resource name, with no other rewriting,
and scheme/netloc are passed through with empty params, query and
fragment. -/
theorem c8_url_formation (scheme address : String) (name : List Nat) :
    Server.url scheme address (bytesFiles ++ name) =
      { scheme := scheme, netloc := address, path := "/files/" ++ pyQuote name,
        params := "", query := "", fragment := "" } ∧
    Server.url scheme address (bytesDirs ++ name) =
      { scheme := scheme, netloc := address, path := "/dirs/" ++ pyQuote name,
        params := "", query := "", fragment := "" } ∧
    Server.url scheme address (bytesBoilerplates ++ name) =
      { scheme := scheme, netloc := address, path := "/boilerplates/" ++ pyQuote name,
        params := "", query := "", fragment := "" } := by
  refine ⟨?_, ?_, ?_⟩ <;>
    simp [Server.url, ParseResult.mk.injEq, pyQuote_append, pyQuote_bytesFiles,
      pyQuote_bytesDirs, pyQuote_bytesBoilerplates]

/-- Witness for C8: the name `a b` (bytes 97, 32, 98) is addressed under
`/files/` with the space percent-encoded and nothing else rewritten. -/
theorem c8_url_formation_w :
    Server.url "https" "cab.example" (bytesFiles ++ [97, 32, 98]) =
      { scheme := "https", netloc := "cab.example", path := "/files/" ++ pyQuote [97, 32, 98],
        params := "", query := "", fragment := "" } ∧
    pyQuote [97, 32, 98] = "a%20b" :=
  ⟨(c8_url_formation "https" "cab.example" [97, 32, 98]).1, by decide⟩

/-- C9: constructing a boilerplate payload raises the invalid-boilerplate
error exactly when some key or some value of the mapping is not a string;
when all keys and values are strings the constructed Files equals the given
mapping. -/
theorem c9_files_validation (files : List (PyVal × PyVal)) :
    (Files.init files = .error (.error invalidBoilerplateMsg) ↔
      ∃ kv ∈ files, kv.1.isStr = false ∨ kv.2.isStr = false) ∧
    ((∀ kv ∈ files, kv.1.isStr = true ∧ kv.2.isStr = true) →
      Files.init files = .ok files) := by
  constructor
  · unfold Files.init
    split
    · next h =>
      simp only [List.all_eq_true] at h
      constructor
      · intro he
        exact absurd he (by simp)
      · rintro ⟨kv, hmem, hbad⟩
        have hv := h kv hmem
        rw [Bool.and_eq_true] at hv
        rcases hbad with hb | hb
        · rw [hv.1] at hb
          exact absurd hb (by simp)
        · rw [hv.2] at hb
          exact absurd hb (by simp)
    · next h =>
      simp only [List.all_eq_true, not_forall] at h
      constructor
      · intro _
        obtain ⟨kv, hmem, hbad⟩ := h
        refine ⟨kv, hmem, ?_⟩
        rcases Bool.eq_false_or_eq_true kv.1.isStr with h1 | h1
        · rcases Bool.eq_false_or_eq_true kv.2.isStr with h2 | h2
          · exact absurd (by rw [h1, h2]; rfl) hbad
          · exact Or.inr h2
        · exact Or.inl h1
      · intro _
        rfl
  · intro hall
    unfold Files.init
    rw [if_pos]
    simp only [List.all_eq_true]
    intro kv hmem
    rw [Bool.and_eq_true]
    exact hall kv hmem

/-- Witness for C9: an all-string mapping constructs unchanged. -/
theorem c9_files_validation_w :
    (∀ kv ∈ [(PyVal.str "a", PyVal.str "b")], kv.1.isStr = true ∧ kv.2.isStr = true) ∧
    Files.init [(PyVal.str "a", PyVal.str "b")] = .ok [(PyVal.str "a", PyVal.str "b")] :=
  ⟨by decide, (c9_files_validation [(PyVal.str "a", PyVal.str "b")]).2 (by decide)⟩

/-- C10: for get_file, put_file and delete_file the conditional header is
attached exactly when the supplied optional validator/timestamp is a
non-empty string, so an empty string is treated the same as an absent value
and a call with empty-string validator and timestamp forms a fully
unconditional request. -/
theorem c10_empty_string_unconditional (name body : String) (v m : Option String)
    (s : String) :
    ((Server.get_file_request name v m).ifNoneMatch = some s ↔ v = some s ∧ s ≠ "") ∧
    ((Server.get_file_request name v m).ifModifiedSince = some s ↔ m = some s ∧ s ≠ "") ∧
    ((Server.put_file_request name body v m).ifMatch = some s ↔ v = some s ∧ s ≠ "") ∧
    ((Server.put_file_request name body v m).ifUnmodifiedSince = some s ↔
      m = some s ∧ s ≠ "") ∧
    ((Server.delete_file_request name v m).ifMatch = some s ↔ v = some s ∧ s ≠ "") ∧
    ((Server.delete_file_request name v m).ifUnmodifiedSince = some s ↔
      m = some s ∧ s ≠ "") ∧
    Server.get_file_request name (some "") (some "") =
      { method := .get, path := .files name } ∧
    Server.put_file_request name body (some "") (some "") =
      { method := .put, path := .files name, body := some body } ∧
    Server.delete_file_request name (some "") (some "") =
      { method := .delete, path := .files name } := by
  refine ⟨condVal_eq_some v s, condVal_eq_some m s, condVal_eq_some v s, condVal_eq_some m s,
    condVal_eq_some v s, condVal_eq_some m s, ?_, ?_, ?_⟩ <;>
    simp [Server.get_file_request, Server.put_file_request, Server.delete_file_request, condVal]

/-- Witness for C10: an empty-string validator and timestamp give a fully
unconditional get request. -/
theorem c10_empty_string_unconditional_w :
    Server.get_file_request "n" (some "") (some "") =
      { method := .get, path := .files "n" } :=
  (c10_empty_string_unconditional "n" "b" (some "") (some "") "s").2.2.2.2.2.2.1

/-- C4: a read of a previously-uncached name issues a single fully
unconditional fetch (no If-None-Match or If-Modified-Since header); on
success it populates the cache and the in-memory data with the returned
validator, timestamp and payload before returning that payload; and the
internal cache-miss signal is absorbed — no read ever surfaces a NotCached
error, for any transport. -/
theorem c4_uncached_read (name : String) (c : Cache) (rem : FRemote) (g : RemoteFile)
    (hc : c name = none) (hr : rem.files name = some g) :
    (FileEntry.content fileRemote rem name none c).requests =
      [{ method := .get, path := .files name }] ∧
    (FileEntry.content fileRemote rem name none c).result = .ok (some g.content) ∧
    (FileEntry.content fileRemote rem name none c).cache name =
      some { etag := some g.etag, modified := some g.modified, content := some g.content } ∧
    (FileEntry.content fileRemote rem name none c).data =
      some { etag := some g.etag, modified := some g.modified, content := some g.content } ∧
    (∀ (σ : Type) (t : Transport σ) (s : σ) (msg : String),
      (FileEntry.content t s name none c).result ≠ .error (.notCached msg)) := by
  refine ⟨?_, ?_, ?_, ?_, fun σ t s msg => content_result_ne_notCached t s name none c msg⟩ <;>
    simp [FileEntry.content, safe_data, hc, Server.get_file_request, condVal, fileRemote, hr,
      condNotModified, ok200, Server.get_file_classify, cacheInsert]

/-- Witness for C4: the spec scenario — empty cache, remote holds
`notes.txt` with validator `e1` and body `hello`. -/
theorem c4_uncached_read_w :
    (fun _ : String => (none : Option FileData)) "notes.txt" = none ∧
    (FileEntry.content fileRemote
        { files := fun n => if n = "notes.txt" then some ⟨"e1", "t1", "hello"⟩ else none,
          fresh := 0 }
        "notes.txt" none (fun _ => none)).result = .ok (some "hello") :=
  ⟨rfl,
   (c4_uncached_read "notes.txt" (fun _ => none)
      { files := fun n => if n = "notes.txt" then some ⟨"e1", "t1", "hello"⟩ else none,
        fresh := 0 }
      ⟨"e1", "t1", "hello"⟩ rfl (by simp)).2.1⟩

/-- C3: a read of a name cached with validator V and payload P, against a
remote whose validator is still V, sends a conditional request carrying V as
If-None-Match, is answered 304 — get_file classifies the response as `none`,
so no payload is transferred — and the read returns the cached payload with
cache, data and remote state untouched; and when a 304 arrives while nothing
is cached, the read fails with the internal assertion fault instead of
returning. -/
theorem c3_not_modified_read (name V P : String) (M : Option String) (d : Option FileData)
    (c : Cache) (rem : FRemote) (g : RemoteFile)
    (hd : safe_data d c name = some { etag := some V, modified := M, content := some P })
    (hv : V ≠ "") (hr : rem.files name = some g) (he : g.etag = V) :
    (FileEntry.content fileRemote rem name d c).requests =
      [Server.get_file_request name (some V) M] ∧
    (Server.get_file_request name (some V) M).ifNoneMatch = some V ∧
    (fileRemote rem (Server.get_file_request name (some V) M)).1.status = 304 ∧
    Server.get_file_classify (fileRemote rem (Server.get_file_request name (some V) M)).1 =
      .ok none ∧
    (FileEntry.content fileRemote rem name d c).result = .ok (some P) ∧
    (FileEntry.content fileRemote rem name d c).cache = c ∧
    (FileEntry.content fileRemote rem name d c).state = rem ∧
    (∀ (name2 : String) (c2 : Cache), c2 name2 = none →
      (FileEntry.content (fun u _ => ({ status := 304 }, u)) () name2 none c2).result =
        .error .assertionFailed) := by
  have hpart2 : ∀ (name2 : String) (c2 : Cache), c2 name2 = none →
      (FileEntry.content (fun u _ => ({ status := 304 }, u)) () name2 none c2).result =
        .error .assertionFailed := by
    intro name2 c2 h2
    simp [FileEntry.content, safe_data, h2, Server.get_file_request, condVal,
      Server.get_file_classify]
  refine ⟨?_, ?_, ?_, ?_, ?_, ?_, ?_, hpart2⟩ <;>
    simp [FileEntry.content, hd, Server.get_file_request, condVal, hv, fileRemote, hr,
      condNotModified, he, Server.get_file_classify]

/-- Witness for C3: `notes.txt` cached with validator `e1` and payload
`hello`, remote unchanged. -/
theorem c3_not_modified_read_w :
    ("e1" : String) ≠ "" ∧
    (FileEntry.content fileRemote
        { files := fun n => if n = "notes.txt" then some ⟨"e1", "t1", "hello"⟩ else none,
          fresh := 0 }
        "notes.txt"
        (some { etag := some "e1", modified := some "t1", content := some "hello" })
        (fun _ => none)).result = .ok (some "hello") :=
  ⟨by decide,
   (c3_not_modified_read "notes.txt" "e1" "hello" (some "t1")
      (some { etag := some "e1", modified := some "t1", content := some "hello" })
      (fun _ => none)
      { files := fun n => if n = "notes.txt" then some ⟨"e1", "t1", "hello"⟩ else none,
        fresh := 0 }
      ⟨"e1", "t1", "hello"⟩ rfl (by decide) (by simp) rfl).2.2.2.2.1⟩

/-- C1: a write holding validator V against a remote whose validator is no
longer V is answered 412 — the transport classifies it as PreconditionFailed
— and the operation aborts: the cache, the in-memory data and the remote are
left exactly as they were, only the one put request was attempted, and the
caller receives a conflict Error whose message names the resource; the same
holds for the boilerplate variant. -/
theorem c1_stale_write_aborts (name content V : String) (fd : FileData) (d : Option FileData)
    (c : Cache) (rem : FRemote) (g : RemoteFile)
    (hd : safe_data d c name = some fd) (he : fd.etag = some V) (hv : V ≠ "")
    (hr : rem.files name = some g) (hne : g.etag ≠ V) :
    Server.put_file_classify
        (fileRemote rem (Server.put_file_request name content (some V) fd.modified)).1 =
      .error (.preconditionFailed "precondition failed") ∧
    (FileEntry.update fileRemote rem name content d c).result =
      .error (.error s!"{name} has been modified on the server since your last access. Try downloading the file to review the changes.") ∧
    (FileEntry.update fileRemote rem name content d c).cache = c ∧
    (FileEntry.update fileRemote rem name content d c).data = some fd ∧
    (FileEntry.update fileRemote rem name content d c).state = rem ∧
    (FileEntry.update fileRemote rem name content d c).requests =
      [Server.put_file_request name content (some V) fd.modified] ∧
    (∀ (bd : BoilerplateData) (db : Option BoilerplateData) (cb : BCache) (bres : BRemote)
        (bg : BRemoteFile) (fs : Files),
      bsafe_data db cb name = some bd → bd.etag = some V → bres.store name = some bg →
      bg.etag ≠ V →
      (Boilerplate.update bpRemote bres name fs db cb).result =
        .error (.error s!"{name} has been modified on the server since your last access. Try downloading the boilerplate to review the changes.") ∧
      (Boilerplate.update bpRemote bres name fs db cb).cache = cb ∧
      (Boilerplate.update bpRemote bres name fs db cb).state = bres ∧
      (Boilerplate.update bpRemote bres name fs db cb).requests =
        [Server.put_boilerplate_request name fs (some V) bd.modified]) := by
  have hne2 : V ≠ g.etag := fun h => hne h.symm
  have hbpart : ∀ (bd : BoilerplateData) (db : Option BoilerplateData) (cb : BCache)
      (bres : BRemote) (bg : BRemoteFile) (fs : Files),
      bsafe_data db cb name = some bd → bd.etag = some V → bres.store name = some bg →
      bg.etag ≠ V →
      (Boilerplate.update bpRemote bres name fs db cb).result =
        .error (.error s!"{name} has been modified on the server since your last access. Try downloading the boilerplate to review the changes.") ∧
      (Boilerplate.update bpRemote bres name fs db cb).cache = cb ∧
      (Boilerplate.update bpRemote bres name fs db cb).state = bres ∧
      (Boilerplate.update bpRemote bres name fs db cb).requests =
        [Server.put_boilerplate_request name fs (some V) bd.modified] := by
    intro bd db cb bres bg fs hbd hbe hbs hbne
    have hbne2 : V ≠ bg.etag := fun h => hbne h.symm
    refine ⟨?_, ?_, ?_, ?_⟩ <;>
      simp [Boilerplate.update, hbd, hbe, Server.put_boilerplate_request, condVal, hv,
        bpRemote, hbs, bremoteCur, preMatch, hbne2, Server.put_boilerplate_classify]
  refine ⟨?_, ?_, ?_, ?_, ?_, ?_, hbpart⟩ <;>
    simp [FileEntry.update, hd, he, Server.put_file_request, condVal, hv, fileRemote, hr,
      remoteCur, preMatch, hne2, Server.put_file_classify]

/-- Witness for C1: the spec scenario — `a.json` cached with validator `e1`,
remote validator now `e2`. -/
theorem c1_stale_write_aborts_w :
    ("e2" : String) ≠ "e1" ∧
    (FileEntry.update fileRemote
        { files := fun n => if n = "a.json" then some ⟨"e2", "t2", "newer"⟩ else none,
          fresh := 5 }
        "a.json" "newBody" none
        (fun n => if n = "a.json" then
          some { etag := some "e1", modified := some "t1", content := some "old" }
          else none)).cache =
      (fun n => if n = "a.json" then
        some { etag := some "e1", modified := some "t1", content := some "old" }
        else none) :=
  ⟨by decide,
   (c1_stale_write_aborts "a.json" "newBody" "e1"
      { etag := some "e1", modified := some "t1", content := some "old" } none
      (fun n => if n = "a.json" then
        some { etag := some "e1", modified := some "t1", content := some "old" }
        else none)
      { files := fun n => if n = "a.json" then some ⟨"e2", "t2", "newer"⟩ else none,
        fresh := 5 }
      ⟨"e2", "t2", "newer"⟩ (by simp [safe_data]) rfl (by decide) (by simp)
      (by decide)).2.2.1⟩

/-- Unfolding lemma: consulting the store is skipped when in-memory data is
present. -/
theorem safe_data_some (x : FileData) (c : Cache) (n : String) :
    safe_data (some x) c n = some x := rfl

/-- C2 (amended): on a successful file write the entry performs exactly one
put followed by one metadata-only head request (whose response carries no
body), and stores a cache record pairing the post-write validator and
timestamp with the payload just written, with no get request issued; the
boilerplate variant, however, refreshes with a full unconditional GET of the
boilerplate content after the put — re-downloading the payload — so the
post-write protocol logic is not identical for the two payload variants. -/
theorem c2_write_refresh (name content : String) (d : Option FileData) (c : Cache)
    (rem : FRemote)
    (hp : preMatch (remoteCur (rem.files name))
        (condVal ((safe_data d c name).getD {}).etag)
        (condVal ((safe_data d c name).getD {}).modified) = true) :
    (FileEntry.update fileRemote rem name content d c).result = .ok () ∧
    (FileEntry.update fileRemote rem name content d c).requests =
      [Server.put_file_request name content ((safe_data d c name).getD {}).etag
         ((safe_data d c name).getD {}).modified,
       { method := .head, path := .files name }] ∧
    (FileEntry.update fileRemote rem name content d c).state.files name =
      some { etag := freshEtag rem.fresh, modified := freshMod rem.fresh, content := content } ∧
    (FileEntry.update fileRemote rem name content d c).cache name =
      some { etag := some (freshEtag rem.fresh), modified := some (freshMod rem.fresh),
             content := some content } ∧
    (fileRemote (FileEntry.update fileRemote rem name content d c).state
        (Server.file_head_request name)).1.text = "" ∧
    (∀ (db : Option BoilerplateData) (cb : BCache) (brem : BRemote) (fs : Files),
      preMatch (bremoteCur (brem.store name))
          (condVal ((bsafe_data db cb name).getD {}).etag)
          (condVal ((bsafe_data db cb name).getD {}).modified) = true →
      (Boilerplate.update bpRemote brem name fs db cb).requests =
        [Server.put_boilerplate_request name fs ((bsafe_data db cb name).getD {}).etag
           ((bsafe_data db cb name).getD {}).modified,
         Server.get_boilerplate_request name none none] ∧
      (Server.get_boilerplate_request name none none).method = .get ∧
      (bpRemote (Boilerplate.update bpRemote brem name fs db cb).state
          (Server.get_boilerplate_request name none none)).1.json = some fs ∧
      (Boilerplate.update bpRemote brem name fs db cb).cache name =
        some { etag := some (freshEtag brem.fresh), modified := some (freshMod brem.fresh),
               files := some fs }) := by
  have hbpart : ∀ (db : Option BoilerplateData) (cb : BCache) (brem : BRemote) (fs : Files),
      preMatch (bremoteCur (brem.store name))
          (condVal ((bsafe_data db cb name).getD {}).etag)
          (condVal ((bsafe_data db cb name).getD {}).modified) = true →
      (Boilerplate.update bpRemote brem name fs db cb).requests =
        [Server.put_boilerplate_request name fs ((bsafe_data db cb name).getD {}).etag
           ((bsafe_data db cb name).getD {}).modified,
         Server.get_boilerplate_request name none none] ∧
      (Server.get_boilerplate_request name none none).method = .get ∧
      (bpRemote (Boilerplate.update bpRemote brem name fs db cb).state
          (Server.get_boilerplate_request name none none)).1.json = some fs ∧
      (Boilerplate.update bpRemote brem name fs db cb).cache name =
        some { etag := some (freshEtag brem.fresh), modified := some (freshMod brem.fresh),
               files := some fs } := by
    intro db cb brem fs hp2
    simp only [Boilerplate.update, Server.put_boilerplate_request, bpRemote]
    simp only [hp2]
    simp [Server.put_boilerplate_classify, Server.get_boilerplate_request,
      Server.get_boilerplate_classify, condNotModified, condVal, bcacheInsert]
  refine ⟨?_, ?_, ?_, ?_, ?_, hbpart⟩ <;> (
    simp only [FileEntry.update, Server.put_file_request, fileRemote]
    simp only [hp]
    simp [Server.put_file_classify, Server.file_head_request, Server.file_head_classify,
      okHead, cacheInsert])

/-- Witness for C2: a first (unconditional) write of `P` to an absent
`notes.txt`. -/
theorem c2_write_refresh_w :
    preMatch (remoteCur ((fun _ : String => (none : Option RemoteFile)) "notes.txt"))
        (condVal ((safe_data none (fun _ => none) "notes.txt").getD {}).etag)
        (condVal ((safe_data none (fun _ => none) "notes.txt").getD {}).modified) = true ∧
    (FileEntry.update fileRemote { files := fun _ => none, fresh := 0 } "notes.txt" "P" none
        (fun _ => none)).cache "notes.txt" =
      some { etag := some (freshEtag 0), modified := some (freshMod 0), content := some "P" } :=
  ⟨by decide,
   (c2_write_refresh "notes.txt" "P" none (fun _ => none)
      { files := fun _ => none, fresh := 0 } (by decide)).2.2.2.1⟩

/-- C2 counterexample: after a successful boilerplate write the second
request issued is a full GET (not a metadata-only head), and the cache stores
the re-downloaded mapping — so the claimed payload-variant-independent
"metadata-only refresh, no content re-download" is false for the boilerplate
variant at this concrete input. -/
theorem c2_counterexample :
    (Boilerplate.update bpRemote { store := fun _ => none, fresh := 0 } "b" [("x", "y")] none
        (fun _ => none)).requests.map Request.method = [Method.put, Method.get] ∧
    (Boilerplate.update bpRemote { store := fun _ => none, fresh := 0 } "b" [("x", "y")] none
        (fun _ => none)).requests.map Request.method ≠ [Method.put, Method.head] ∧
    (bpRemote (Boilerplate.update bpRemote { store := fun _ => none, fresh := 0 } "b"
        [("x", "y")] none (fun _ => none)).state
        (Server.get_boilerplate_request "b" none none)).1.json = some [("x", "y")] := by
  refine ⟨by decide, by decide, by decide⟩

/-- C5: a successful write of P immediately followed by a read in the same
process (no external remote change) returns exactly P; the write performs
only the put and the metadata head refresh, and the read performs a single
conditional get that the remote answers 304 NotModified — get_file classifies
it as none, so no payload is re-fetched — leaving cache and remote state
untouched. -/
theorem c5_round_trip (name P : String) (d : Option FileData) (c : Cache) (rem : FRemote)
    (hp : preMatch (remoteCur (rem.files name))
        (condVal ((safe_data d c name).getD {}).etag)
        (condVal ((safe_data d c name).getD {}).modified) = true)
    (w : FOut Unit FRemote) (hw : w = FileEntry.update fileRemote rem name P d c) :
    w.result = .ok () ∧
    w.requests.map Request.method = [Method.put, Method.head] ∧
    (FileEntry.content fileRemote w.state name w.data w.cache).result = .ok (some P) ∧
    (FileEntry.content fileRemote w.state name w.data w.cache).requests.map Request.method =
      [Method.get] ∧
    Server.get_file_classify
        (fileRemote w.state (Server.get_file_request name (some (freshEtag rem.fresh))
          (some (freshMod rem.fresh)))).1 = .ok none ∧
    (FileEntry.content fileRemote w.state name w.data w.cache).cache = w.cache ∧
    (FileEntry.content fileRemote w.state name w.data w.cache).state = w.state := by
  subst hw
  have hne := freshEtag_ne_empty rem.fresh
  have hnem := freshMod_ne_empty rem.fresh
  refine ⟨?_, ?_, ?_, ?_, ?_, ?_, ?_⟩ <;> (
    simp only [FileEntry.update, Server.put_file_request, fileRemote]
    simp only [hp]
    simp [FileEntry.content, safe_data_some, Server.get_file_request, condVal, hne, hnem,
      fileRemote, condNotModified, Server.get_file_classify, Server.put_file_classify,
      Server.file_head_request, Server.file_head_classify, okHead, cacheInsert])

/-- Witness for C5: first write of `P` to an uncached absent `notes.txt`,
then a read. -/
theorem c5_round_trip_w :
    preMatch (remoteCur ((fun _ : String => (none : Option RemoteFile)) "notes.txt"))
        (condVal ((safe_data none (fun _ => none) "notes.txt").getD {}).etag)
        (condVal ((safe_data none (fun _ => none) "notes.txt").getD {}).modified) = true ∧
    (FileEntry.content fileRemote
        (FileEntry.update fileRemote { files := fun _ => none, fresh := 0 } "notes.txt" "P"
          none (fun _ => none)).state
        "notes.txt"
        (FileEntry.update fileRemote { files := fun _ => none, fresh := 0 } "notes.txt" "P"
          none (fun _ => none)).data
        (FileEntry.update fileRemote { files := fun _ => none, fresh := 0 } "notes.txt" "P"
          none (fun _ => none)).cache).result = .ok (some "P") :=
  ⟨by decide,
   (c5_round_trip "notes.txt" "P" none (fun _ => none) { files := fun _ => none, fresh := 0 }
      (by decide) _ rfl).2.2.1⟩

/-- C7: on a delete whose precondition matches, the remote succeeds and the
cache record is evicted; eviction is idempotent and silently succeeds when
the record is absent; on a precondition conflict or an absent remote file the
PreconditionFailed / NotFound error propagates unchanged, no second request
is attempted, and the cache record is not evicted. -/
theorem c7_delete_eviction (name : String) (d : Option FileData) (c : Cache) (rem : FRemote) :
    (∀ g, rem.files name = some g →
      preMatch (remoteCur (rem.files name))
          (condVal ((safe_data d c name).getD {}).etag)
          (condVal ((safe_data d c name).getD {}).modified) = true →
      (FileEntry.delete fileRemote rem name d c).result = .ok () ∧
      (FileEntry.delete fileRemote rem name d c).cache = cacheDelete c name ∧
      (FileEntry.delete fileRemote rem name d c).requests =
        [Server.delete_file_request name ((safe_data d c name).getD {}).etag
           ((safe_data d c name).getD {}).modified]) ∧
    cacheDelete c name name = none ∧
    (∀ m, m ≠ name → cacheDelete c name m = c m) ∧
    (∀ m, cacheDelete (cacheDelete c name) name m = cacheDelete c name m) ∧
    (∀ g, rem.files name = some g →
      preMatch (remoteCur (rem.files name))
          (condVal ((safe_data d c name).getD {}).etag)
          (condVal ((safe_data d c name).getD {}).modified) = false →
      (FileEntry.delete fileRemote rem name d c).result =
        .error (.preconditionFailed "precondition failed") ∧
      (FileEntry.delete fileRemote rem name d c).cache = c ∧
      (FileEntry.delete fileRemote rem name d c).state = rem ∧
      (FileEntry.delete fileRemote rem name d c).requests =
        [Server.delete_file_request name ((safe_data d c name).getD {}).etag
           ((safe_data d c name).getD {}).modified]) ∧
    (rem.files name = none →
      (FileEntry.delete fileRemote rem name d c).result = .error (.notFound "file not found") ∧
      (FileEntry.delete fileRemote rem name d c).cache = c ∧
      (FileEntry.delete fileRemote rem name d c).requests =
        [Server.delete_file_request name ((safe_data d c name).getD {}).etag
           ((safe_data d c name).getD {}).modified]) := by
  refine ⟨?_, ?_, ?_, ?_, ?_, ?_⟩
  · intro g hg hp
    rw [hg] at hp
    simp only [FileEntry.delete, Server.delete_file_request, fileRemote]
    simp only [hg, hp]
    simp [Server.delete_file_classify]
  · simp [cacheDelete]
  · intro m hm
    simp [cacheDelete, hm]
  · intro m
    by_cases hm : m = name <;> simp [cacheDelete, hm]
  · intro g hg hp
    rw [hg] at hp
    simp only [FileEntry.delete, Server.delete_file_request, fileRemote]
    simp only [hg, hp]
    simp [Server.delete_file_classify]
  · intro hg
    simp only [FileEntry.delete, Server.delete_file_request, fileRemote]
    simp only [hg]
    simp [Server.delete_file_classify]

/-- Witness for C7: deleting `notes.txt` with a matching cached validator
evicts the record. -/
theorem c7_delete_eviction_w :
    ({ files := fun n => if n = "notes.txt" then some ⟨"e1", "t1", "hello"⟩ else none,
       fresh := 0 } : FRemote).files "notes.txt" = some ⟨"e1", "t1", "hello"⟩ ∧
    (FileEntry.delete fileRemote
        { files := fun n => if n = "notes.txt" then some ⟨"e1", "t1", "hello"⟩ else none,
          fresh := 0 }
        "notes.txt"
        (some { etag := some "e1", modified := some "t1", content := some "hello" })
        (fun _ => none)).result = .ok () :=
  ⟨by decide,
   ((c7_delete_eviction "notes.txt"
      (some { etag := some "e1", modified := some "t1", content := some "hello" })
      (fun _ => none)
      { files := fun n => if n = "notes.txt" then some ⟨"e1", "t1", "hello"⟩ else none,
        fresh := 0 }).1 ⟨"e1", "t1", "hello"⟩ (by decide) (by decide)).1⟩

end Commode
